import Mathlib

/-!
Verification development for the motor-technician assistant.

The Python sources (`database.py`, `app.py`, `llm_worker.py`) are shallowly
embedded below: the SQLite-backed ledger becomes an explicit `Store` value
threaded through each operation, transient lock contention of the underlying
store is an oracle `locked : Nat → Bool` telling whether attempt `i` of a
retry loop hits a lock-busy error, and Python exceptions become `Except`
results.  Timestamps are naturals; the calendar date of a timestamp is
`dateOf`.
-/

namespace MotorTech

/-- Python truthiness of an optional string value (`None` and `""` are falsy). -/
def truthyStr : Option String → Bool
  | none => false
  | some s => s ≠ ""

/-- Python truthiness of an optional integer value (`None` and `0` are falsy). -/
def truthyInt : Option Int → Bool
  | none => false
  | some n => n ≠ 0

/-- Python truthiness of an optional natural (`None` and `0` are falsy). -/
def truthyNat : Option Nat → Bool
  | none => false
  | some n => n ≠ 0

/-- Python `str.lower()` restricted to its ASCII behaviour, the semantics of
`.lower()` / SQL `LOWER` on the strings this program handles. -/
def lowerStr (s : String) : String :=
  ⟨s.data.map Char.toLower⟩

/-- A transaction payload dictionary as passed to the store functions;
each field is `none` when the key is absent (Python `dict.get` gives `None`). -/
structure Payload where
  type : Option String
  amount_paise : Option Int
  customer : Option String
  details : Option String
deriving DecidableEq

/-- Calendar date of a timestamp (`DATE(timestamp)` in the SQL). -/
def dateOf (ts : Nat) : Nat := ts / 1000000

/-- A row of the `transactions` table. -/
structure Txn where
  id : Nat
  type : String
  amount_paise : Int
  customer_name : Option String
  details : Option String
  timestamp : Nat
deriving DecidableEq

/-- A row of the `business_insights` table (the DailyInsight aggregate),
minus its surrogate id and unused notes column. -/
structure InsightRow where
  total_income_paise : Int
  total_expense_paise : Int
  transaction_count : Nat
  top_customer : Option String
deriving DecidableEq

/-- The persistent database state: the transactions table in insertion order,
the next AUTOINCREMENT id, and the insights table keyed by date. -/
structure Store where
  txns : List Txn
  nextId : Nat
  insights : List (Nat × InsightRow)
deriving DecidableEq

/-- Errors raised by the embedded store operations:
`locked` is `sqlite3.OperationalError` for lock contention, `valueError` the
explicit guard in `add_transaction`, `integrityError` a schema CHECK / NOT
NULL violation, `attributeError` calling `.lower()` on a missing value. -/
inductive DBError
  | locked
  | valueError
  | integrityError
  | attributeError
deriving DecidableEq

/-- Decidable equality on store-operation results, so that concrete runs can
be checked by evaluation. -/
instance exceptDBDecEq {α : Type} [DecidableEq α] : DecidableEq (Except DBError α) := by
  intro x y
  rcases x with e | a <;> rcases y with f | b
  · rcases hef : decide (e = f) with _ | _
    · exact isFalse (fun hc => by cases hc; simp at hef)
    · exact isTrue (by rw [of_decide_eq_true hef])
  · exact isFalse (fun hc => by cases hc)
  · exact isFalse (fun hc => by cases hc)
  · rcases hab : decide (a = b) with _ | _
    · exact isFalse (fun hc => by cases hc; simp at hab)
    · exact isTrue (by rw [of_decide_eq_true hab])

/-- validate_transaction_data from database.py: field checks in source order. -/
def validate_transaction_data (payload : Payload) : Bool × String :=
  if ¬ truthyStr payload.type then
    (false, "Transaction type is required")
  else if ¬ (lowerStr (payload.type.getD "") = "income" ∨
             lowerStr (payload.type.getD "") = "expense") then
    (false, "Transaction type must be income or expense")
  else if payload.amount_paise = none ∨ payload.amount_paise.getD 0 ≤ 0 then
    (false, "Amount must be greater than 0")
  else if truthyStr payload.customer ∧ (payload.customer.getD "").length > 100 then
    (false, "Customer name too long (max 100 characters)")
  else if truthyStr payload.details ∧ (payload.details.getD "").length > 500 then
    (false, "Details too long (max 500 characters)")
  else
    (true, "Valid")

/-- The rejection predicate exactly as claim C6 words it: amount missing or
non-positive, type missing or (as a string, case-sensitively) outside the
enum, customer over 100 characters, details over 500 characters. -/
def rejectsPerClaim (payload : Payload) : Prop :=
  (payload.amount_paise = none ∨ payload.amount_paise.getD 0 ≤ 0) ∨
  (match payload.type with
   | none => True
   | some tv => ¬ (tv = "income" ∨ tv = "expense")) ∨
  (match payload.customer with
   | none => False
   | some c => c.length > 100) ∨
  (match payload.details with
   | none => False
   | some dt => dt.length > 500)

/-- The rejection predicate of the code: as `rejectsPerClaim` but the type
string is compared against the enum after lowercasing (and an empty type
string counts as missing). -/
def rejectsAmended (payload : Payload) : Prop :=
  (payload.amount_paise = none ∨ payload.amount_paise.getD 0 ≤ 0) ∨
  (match payload.type with
   | none => True
   | some tv => ¬ (lowerStr tv = "income" ∨ lowerStr tv = "expense")) ∨
  (match payload.customer with
   | none => False
   | some c => c.length > 100) ∨
  (match payload.details with
   | none => False
   | some dt => dt.length > 500)

/-! ### DailyInsight recompute (`update_daily_insights`) -/

/-- The first aggregate query of `update_daily_insights`: one pass over the
rows of date `d` accumulating `SUM(CASE WHEN type = income ...)`,
`SUM(CASE WHEN type = expense ...)` and `COUNT(*)`. -/
def insightTotals (d : Nat) (ts : List Txn) : Int × Int × Nat :=
  ts.foldl
    (fun acc t =>
      if dateOf t.timestamp = d then
        (acc.1 + (if t.type = "income" then t.amount_paise else 0),
         acc.2.1 + (if t.type = "expense" then t.amount_paise else 0),
         acc.2.2 + 1)
      else acc)
    (0, 0, 0)

/-- Total income booked to a named customer on date `d` (the grouped sum of
the top-customer query). -/
def customerIncomeTotal (d : Nat) (c : String) (ts : List Txn) : Int :=
  ts.foldl
    (fun acc t =>
      if dateOf t.timestamp = d ∧ t.type = "income" ∧ t.customer_name = some c then
        acc + t.amount_paise
      else acc)
    0

/-- The distinct non-null customer names appearing on income rows of date `d`
(the groups of the top-customer query). -/
def namedIncomeCustomers (d : Nat) (ts : List Txn) : List String :=
  (ts.filterMap
    (fun t => if dateOf t.timestamp = d ∧ t.type = "income" then t.customer_name else none)).dedup

/-- The top-customer query: among the income customers of date `d`, one with
the greatest income total (`ORDER BY total DESC LIMIT 1`), or `none` when no
income row of that date has a customer. -/
def top_customer_on (d : Nat) (ts : List Txn) : Option String :=
  (namedIncomeCustomers d ts).foldl
    (fun best c =>
      match best with
      | none => some c
      | some b => if customerIncomeTotal d b ts < customerIncomeTotal d c ts then some c else some b)
    none

/-- `INSERT OR REPLACE` into the insights table, whose date column is UNIQUE:
any previous row for the date is replaced. -/
def setInsight (d : Nat) (r : InsightRow) (l : List (Nat × InsightRow)) :
    List (Nat × InsightRow) :=
  l.filter (fun p => p.1 != d) ++ [(d, r)]

/-- Look up the insights row stored for date `d`. -/
def lookupInsight (d : Nat) (l : List (Nat × InsightRow)) : Option InsightRow :=
  (l.filter (fun p => p.1 == d)).head?.map (·.2)

/-- update_daily_insights from database.py: recompute the aggregates of the
given calendar day (`date.today()` at the call site) from the transactions
table and write them over that day's insights row. -/
def update_daily_insights (today : Nat) (s : Store) : Store :=
  let t := insightTotals today s.txns
  { s with insights :=
      setInsight today ⟨t.1, t.2.1, t.2.2, top_customer_on today s.txns⟩ s.insights }

/-! ### The mutating operations and their retry loops -/

/-- The `for attempt in range(3)` loops of database.py: run attempt 0; a
lock-busy error on attempts 0 and 1 is retried (after `time.sleep(0.1)`),
any other outcome — including a lock-busy error on attempt 2 — is final. -/
def retryLoop {α : Type} (run : Nat → Except DBError α) : Except DBError α :=
  match run 0 with
  | Except.error DBError.locked =>
    match run 1 with
    | Except.error DBError.locked => run 2
    | r => r
  | r => r

/-- One attempt of `add_transaction`: the explicit required-fields guard runs
before any statement; then the INSERT either hits lock contention (per the
`locked` oracle) or commits, subject to the schema CHECK constraints; on
success the day's insights are recomputed and the fresh row id returned. -/
def addAttempt (locked : Nat → Bool) (now : Nat) (payload : Payload) (s : Store)
    (attempt : Nat) : Except DBError (Nat × Store) :=
  if ¬ truthyStr payload.type ∨ ¬ truthyInt payload.amount_paise then
    Except.error DBError.valueError
  else if locked attempt then
    Except.error DBError.locked
  else if ¬ (lowerStr (payload.type.getD "") = "income" ∨
             lowerStr (payload.type.getD "") = "expense") ∨
          payload.amount_paise.getD 0 ≤ 0 then
    Except.error DBError.integrityError
  else
    Except.ok (s.nextId,
      update_daily_insights (dateOf now)
        { s with
            txns := s.txns ++
              [⟨s.nextId, lowerStr (payload.type.getD ""), payload.amount_paise.getD 0,
                payload.customer, payload.details, now⟩],
            nextId := s.nextId + 1 })

/-- add_transaction from database.py. -/
def add_transaction (locked : Nat → Bool) (now : Nat) (payload : Payload) (s : Store) :
    Except DBError (Nat × Store) :=
  retryLoop (addAttempt locked now payload s)

/-- One attempt of `update_transaction` for a truthy id: building the bound
parameters calls `.lower()` on the type value (raising when it is missing);
then the UPDATE statement either hits external lock contention or executes
inside the connection's implicit write transaction, raising the integrity
error when a matched row would violate the CHECK / NOT NULL constraints.
When the UPDATE does execute, `update_daily_insights` runs before any
commit: it opens a *second* connection whose `INSERT OR REPLACE` blocks on
the still-uncommitted UPDATE transaction and, after the busy timeout,
raises the lock-busy error; leaving the `with` block on that exception
rolls the UPDATE back.  So an attempt never returns — its outcomes are the
attribute error, the integrity error, or the lock error, always leaving the
store unchanged. -/
def updateAttempt (locked : Nat → Bool) (today : Nat) (tid : Nat) (payload : Payload)
    (s : Store) (attempt : Nat) : Except DBError (Bool × Store) :=
  match payload.type with
  | none => Except.error DBError.attributeError
  | some tv =>
    if locked attempt then
      Except.error DBError.locked
    else if s.txns.countP (fun t => t.id == tid) ≠ 0 ∧
            (¬ (lowerStr tv = "income" ∨ lowerStr tv = "expense") ∨
             payload.amount_paise = none ∨ payload.amount_paise.getD 0 ≤ 0) then
      Except.error DBError.integrityError
    else
      Except.error DBError.locked

/-- update_transaction from database.py: a falsy id returns False at once,
otherwise the retried UPDATE described by `updateAttempt`. -/
def update_transaction (locked : Nat → Bool) (today : Nat) (transaction_id : Option Nat)
    (payload : Payload) (s : Store) : Except DBError (Bool × Store) :=
  if ¬ truthyNat transaction_id then
    Except.ok (false, s)
  else
    retryLoop (updateAttempt locked today (transaction_id.getD 0) payload s)

/-- One attempt of `delete_todays_transactions`: the DELETE statement either
hits external lock contention or executes inside the connection's implicit
write transaction; `update_daily_insights` then runs before any commit, and
its `INSERT OR REPLACE` on a second connection blocks on the uncommitted
DELETE transaction and raises the lock-busy error after the busy timeout;
the `with` block rolls the DELETE back.  Either way the attempt raises the
lock error and leaves the store unchanged. -/
def deleteAttempt (locked : Nat → Bool) (today : Nat) (s : Store) (attempt : Nat) :
    Except DBError (Nat × Store) :=
  if locked attempt then
    Except.error DBError.locked
  else
    Except.error DBError.locked

/-- delete_todays_transactions from database.py. -/
def delete_todays_transactions (locked : Nat → Bool) (today : Nat) (s : Store) :
    Except DBError (Nat × Store) :=
  retryLoop (deleteAttempt locked today s)

/-- The row returned by `SELECT ... ORDER BY id DESC LIMIT 1`: a row of
maximal id, or `none` on an empty table. -/
def maxByIdRow : List Txn → Option Txn
  | [] => none
  | t :: ts =>
    match maxByIdRow ts with
    | none => some t
    | some u => if u.id ≤ t.id then some t else some u

/-- get_last_transaction from database.py. -/
def get_last_transaction (s : Store) : Option Txn :=
  maxByIdRow s.txns

/-! ### Filtered query (`query_transactions`) -/

/-- Does the pattern occur at the head of the haystack? -/
def leadMatch : List Char → List Char → Bool
  | [], _ => true
  | _ :: _, [] => false
  | p :: ps, h :: hs => p == h && leadMatch ps hs

/-- Does the pattern occur anywhere inside the haystack? -/
def containsChars (hay pat : List Char) : Bool :=
  match hay with
  | [] => pat.isEmpty
  | _ :: hs => leadMatch pat hay || containsChars hs pat

/-- Case-insensitive substring test, the semantics of
`LOWER(column) LIKE LOWER(%pattern%)` for a wildcard-free pattern. -/
def strContainsCI (hay pat : String) : Bool :=
  containsChars (lowerStr hay).toList (lowerStr pat).toList

/-- A `LIKE` filter applied to a nullable column: a NULL column never
matches (in SQL the comparison is NULL, hence not true). -/
def likeFieldCI (field : Option String) (pat : String) : Bool :=
  match field with
  | none => false
  | some v => strContainsCI v pat

/-- The filter dictionary accepted by `query_transactions`; dates are
calendar dates as produced by `dateOf`. -/
structure QueryFilters where
  customer_name : Option String
  details_keyword : Option String
  type : Option String
  min_amount_paise : Option Int
  max_amount_paise : Option Int
  date_from : Option Nat
  date_to : Option Nat
  limit : Option Nat
deriving DecidableEq

/-- The WHERE clause built by `query_transactions`: each condition is added
only when the corresponding filter value is truthy, and all added conditions
are conjoined. -/
def whereClause (filters : QueryFilters) (t : Txn) : Bool :=
  (!truthyStr filters.customer_name
     || likeFieldCI t.customer_name (filters.customer_name.getD "")) &&
  (!truthyStr filters.details_keyword
     || likeFieldCI t.details (filters.details_keyword.getD "")) &&
  (!truthyStr filters.type || t.type == lowerStr (filters.type.getD "")) &&
  (!truthyInt filters.min_amount_paise
     || decide (filters.min_amount_paise.getD 0 ≤ t.amount_paise)) &&
  (!truthyInt filters.max_amount_paise
     || decide (t.amount_paise ≤ filters.max_amount_paise.getD 0)) &&
  (filters.date_from.isNone || decide (filters.date_from.getD 0 ≤ dateOf t.timestamp)) &&
  (filters.date_to.isNone || decide (dateOf t.timestamp ≤ filters.date_to.getD 0))

/-- Insert a row into a list kept sorted by timestamp, newest first
(stable: an equal timestamp goes after existing entries). -/
def insertByTsDesc (t : Txn) : List Txn → List Txn
  | [] => [t]
  | u :: us => if t.timestamp ≤ u.timestamp then u :: insertByTsDesc t us else t :: u :: us

/-- `ORDER BY timestamp DESC`. -/
def sortByTsDesc : List Txn → List Txn
  | [] => []
  | t :: ts => insertByTsDesc t (sortByTsDesc ts)

/-- query_transactions from database.py: filter, order newest first, and
append `LIMIT n` only when the supplied limit is truthy (nonzero). -/
def query_transactions (filters : QueryFilters) (s : Store) : List Txn :=
  let rows := sortByTsDesc (s.txns.filter (whereClause filters))
  match filters.limit with
  | some l => if l ≠ 0 then rows.take l else rows
  | none => rows

/-- The row predicate exactly as claim C8 words it: every *supplied* filter
field applies — customer substring (case-insensitive), details substring
(case-insensitive), exact type, inclusive amount range, inclusive date
range. -/
def matchesPerClaim (filters : QueryFilters) (t : Txn) : Bool :=
  (match filters.customer_name with
   | none => true
   | some k => likeFieldCI t.customer_name k) &&
  (match filters.details_keyword with
   | none => true
   | some k => likeFieldCI t.details k) &&
  (match filters.type with
   | none => true
   | some v => t.type == v) &&
  (match filters.min_amount_paise with
   | none => true
   | some m => decide (m ≤ t.amount_paise)) &&
  (match filters.max_amount_paise with
   | none => true
   | some m => decide (t.amount_paise ≤ m)) &&
  (match filters.date_from with
   | none => true
   | some d => decide (d ≤ dateOf t.timestamp)) &&
  (match filters.date_to with
   | none => true
   | some d => decide (dateOf t.timestamp ≤ d))

/-- The query result exactly as claim C8 words it: the matching rows, newest
first, truncated to the supplied limit. -/
def queryPerClaim (filters : QueryFilters) (s : Store) : List Txn :=
  let rows := sortByTsDesc (s.txns.filter (matchesPerClaim filters))
  match filters.limit with
  | some l => rows.take l
  | none => rows

/-! ### The orchestrator (`app.py`)

The UI widgets, logging, voice and chat rendering are external collaborators;
what is embedded is the session state the handlers mutate (store, bounded
conversation history, last-transaction pointer, edit-mode flag, single-flight
busy flag) and the control flow of `on_submit` / `process_command` /
`_run_llm_parser` / `handle_llm_response`, exceptions included. -/

/-- A turn of the bounded conversation history. -/
inductive Msg
  | user (content : String)
  | assistant (content : String)
deriving DecidableEq

/-- The payload of a worker response: a diagnostic / answer string, a
transaction dictionary, or a query-filter dictionary. -/
inductive RPayload
  | text (s : String)
  | txn (p : Payload)
  | query (f : QueryFilters)
deriving DecidableEq

/-- A structured worker response (`{intent, payload}`). -/
structure Response where
  intent : String
  payload : Option RPayload
deriving DecidableEq

/-- Python truthiness of the payload value (`None` and an empty string are
falsy; the dictionary payloads the worker produces are non-empty). -/
def truthyPayload : Option RPayload → Bool
  | none => false
  | some (RPayload.text s) => s ≠ ""
  | some (RPayload.txn _) => true
  | some (RPayload.query _) => true

/-- The mutable state of `EnhancedAssistantApp` visible to the handlers,
together with the database it owns. -/
structure AppState where
  store : Store
  conversation_history : List Msg
  last_transaction_id : Option Nat
  is_edit_mode : Bool
  is_processing : Bool
deriving DecidableEq

/-- Python `list[-6:]`. -/
def takeLast {α : Type} (n : Nat) (l : List α) : List α :=
  l.drop (l.length - n)

/-- An opaque stand-in for `json.dumps(response_data)` as stored in the
assistant history turn. -/
def serializeResponse (r : Response) : String :=
  let p := match r.payload with
    | none => "null"
    | some (RPayload.text s) => s
    | some (RPayload.txn _) => "transaction-payload"
    | some (RPayload.query _) => "query-payload"
  "intent=" ++ r.intent ++ ";payload=" ++ p

/-- process_command from app.py: the single-flight guard — while a request is
being processed a new one is dropped; otherwise the app goes busy and the
worker is dispatched off the interactive path. -/
def process_command (command_text : String) (s : AppState) : AppState :=
  if s.is_processing then s else { s with is_processing := true }

/-- on_submit from app.py: a submission is accepted only when the stripped
input text is non-empty and no request is in flight. -/
def on_submit (text : String) (s : AppState) : AppState :=
  if text.trim ≠ "" ∧ ¬ s.is_processing then process_command text.trim s else s

/-- The possible outcomes of the worker subprocess call made by the parser
thread in app.py. -/
inductive WorkerOutcome
  | ok (r : Response)
  | stderrOutput (message : String)
  | timeout
  | malformed
deriving DecidableEq

/-- The response handed to `handle_llm_response` by the parser thread: any
stderr output, a timeout, or unparseable stdout collapses to an
`intent = error` response carrying a diagnostic. -/
def run_llm_worker : WorkerOutcome → Response
  | WorkerOutcome.ok r => r
  | WorkerOutcome.stderrOutput m =>
    ⟨"error", some (RPayload.text ("System error: LLM Worker Error: " ++ m))⟩
  | WorkerOutcome.timeout =>
    ⟨"error", some (RPayload.text "Request timed out. Please try again.")⟩
  | WorkerOutcome.malformed =>
    ⟨"error", some (RPayload.text "Failed to parse AI response. Please try again.")⟩

/-- The app-level retry loop of the `delete_transactions` branch (3 attempts
with `time.sleep(0.5)`), each attempt invoking the store delete, which has
its own inner 3-attempt loop; store attempt `i` of app attempt `j` consults
the contention oracle at index `3 * j + i`. -/
def appDeleteLoop (locked : Nat → Bool) (today : Nat) (s : Store) :
    Except DBError (Nat × Store) :=
  match delete_todays_transactions (fun i => locked i) today s with
  | Except.error DBError.locked =>
    match delete_todays_transactions (fun i => locked (3 + i)) today s with
    | Except.error DBError.locked => delete_todays_transactions (fun i => locked (6 + i)) today s
    | r => r
  | r => r

/-- How a `database_query` branch reads its payload as a filters dictionary:
a query payload is used as is, a transaction dictionary simply lacks every
filter key, and a bare string raises when `.get` is called on it. -/
def payloadFilters : RPayload → Option QueryFilters
  | RPayload.query f => some f
  | RPayload.txn _ => some ⟨none, none, none, none, none, none, none, none⟩
  | RPayload.text _ => none

/-- Outcome of the `try` body of `handle_llm_response`: a normal fall-through
(which then appends the exchange to the history), the early `return` of the
non-empty `database_query` branch (no history append), or a raised exception
carrying whatever state mutations had already happened. -/
inductive DispatchOut
  | normal (s : AppState)
  | earlyReturn (s : AppState)
  | raised (s : AppState)
deriving DecidableEq

/-- The intent dispatch of handle_llm_response from app.py, branch for
branch in source order. -/
def dispatch (locked : Nat → Bool) (now : Nat) (msg : String) (r : Response)
    (s : AppState) : DispatchOut :=
  let today := dateOf now
  if r.intent = "database_query" then
    if truthyPayload r.payload then
      match r.payload with
      | some pl =>
        match payloadFilters pl with
        | none => DispatchOut.raised s
        | some f =>
          if query_transactions f s.store = [] then DispatchOut.normal s
          else DispatchOut.earlyReturn (process_command msg s)
      | none => DispatchOut.normal s
    else DispatchOut.normal s
  else if r.intent = "delete_transactions" then
    match appDeleteLoop locked today s.store with
    | Except.ok (_, st') => DispatchOut.normal { s with store := st' }
    | Except.error _ => DispatchOut.normal s
  else if r.intent = "answer" then
    DispatchOut.normal s
  else if s.is_edit_mode then
    if r.intent = "transaction" ∧ truthyPayload r.payload then
      match r.payload with
      | some (RPayload.txn p) =>
        if (validate_transaction_data p).1 then
          match update_transaction locked today s.last_transaction_id p s.store with
          | Except.ok (_, st') => DispatchOut.normal { s with store := st', is_edit_mode := false }
          | Except.error _ => DispatchOut.raised s
        else DispatchOut.normal { s with is_edit_mode := false }
      | _ => DispatchOut.raised s
    else DispatchOut.normal { s with is_edit_mode := false }
  else if r.intent = "transaction" then
    if truthyPayload r.payload then
      match r.payload with
      | some (RPayload.txn p) =>
        if (validate_transaction_data p).1 then
          match add_transaction locked now p s.store with
          | Except.ok (tid, st') =>
            DispatchOut.normal { s with store := st', last_transaction_id := some tid }
          | Except.error _ => DispatchOut.raised s
        else DispatchOut.normal s
      | _ => DispatchOut.raised s
    else DispatchOut.normal s
  else if r.intent = "update_transaction" then
    if truthyPayload r.payload ∧ truthyNat s.last_transaction_id then
      match r.payload with
      | some (RPayload.txn p) =>
        if (validate_transaction_data p).1 then
          match update_transaction locked today s.last_transaction_id p s.store with
          | Except.ok (_, st') => DispatchOut.normal { s with store := st' }
          | Except.error _ => DispatchOut.raised s
        else DispatchOut.normal s
      | _ => DispatchOut.raised s
    else DispatchOut.normal s
  else
    DispatchOut.normal s

/-- reset_ui_state from app.py (the part beyond pure widget state). -/
def reset_ui_state (s : AppState) : AppState :=
  { s with is_processing := false }

/-- The history bookkeeping at the end of the `try` body: append the user
turn and the serialized response, keep the last 6 entries. -/
def appendHistory (msg : String) (r : Response) (s : AppState) : AppState :=
  { s with conversation_history :=
      takeLast 6 (s.conversation_history ++ [Msg.user msg, Msg.assistant (serializeResponse r)]) }

/-- handle_llm_response from app.py: run the dispatch; on normal fall-through
append the exchange to the bounded history; the early return and the
exception path skip the append; the `finally` clause always restores the
idle state. -/
def handle_llm_response (locked : Nat → Bool) (now : Nat) (msg : String) (r : Response)
    (s : AppState) : AppState :=
  reset_ui_state
    (match dispatch locked now msg r s with
     | DispatchOut.normal s' => appendHistory msg r s'
     | DispatchOut.earlyReturn s' => s'
     | DispatchOut.raised s' => s')

/-! ### Claim-side aggregate definitions

These follow the spec's wording for the DailyInsight aggregates: total
income / total expense as the sums over the income / expense rows of the
date, the transaction count, and the top customer as one of maximal income
total. -/

/-- Sum of the income amounts of date `d`. -/
def sumIncomeOn (d : Nat) : List Txn → Int
  | [] => 0
  | t :: ts =>
    (if dateOf t.timestamp = d ∧ t.type = "income" then t.amount_paise else 0) + sumIncomeOn d ts

/-- Sum of the expense amounts of date `d`. -/
def sumExpenseOn (d : Nat) : List Txn → Int
  | [] => 0
  | t :: ts =>
    (if dateOf t.timestamp = d ∧ t.type = "expense" then t.amount_paise else 0) + sumExpenseOn d ts

/-- Number of rows of date `d`. -/
def countOn (d : Nat) : List Txn → Nat
  | [] => 0
  | t :: ts => (if dateOf t.timestamp = d then 1 else 0) + countOn d ts

/-- What the claim asks of the stored top customer: absent exactly when no
income row of the date names a customer, and otherwise a named income
customer of the date whose income total is maximal. -/
def topCustomerSpec (d : Nat) (ts : List Txn) : Option String → Prop
  | none => namedIncomeCustomers d ts = []
  | some c =>
    c ∈ namedIncomeCustomers d ts ∧
    ∀ b ∈ namedIncomeCustomers d ts, customerIncomeTotal d b ts ≤ customerIncomeTotal d c ts

/-! ### Helper lemmas -/

theorem retryLoop_cases {α : Type} (run : Nat → Except DBError α) :
    retryLoop run = run 0 ∨ retryLoop run = run 1 ∨ retryLoop run = run 2 := by
  unfold retryLoop
  rcases h0 : run 0 with e0 | v0
  · rcases e0 with _ | _ | _ | _
    · rcases h1 : run 1 with e1 | v1
      · rcases e1 with _ | _ | _ | _
        · right; right; rfl
        all_goals right; left; rfl
      · right; left; rfl
    all_goals left; rfl
  · left; rfl

theorem txns_update_daily_insights (d : Nat) (s : Store) :
    (update_daily_insights d s).txns = s.txns := rfl

theorem lookupInsight_setInsight_self (d : Nat) (r : InsightRow)
    (l : List (Nat × InsightRow)) : lookupInsight d (setInsight d r l) = some r := by
  unfold lookupInsight setInsight
  rw [List.filter_append, List.filter_filter]
  have h1 : ∀ p : Nat × InsightRow, (p.1 == d && p.1 != d) = false := by
    intro p
    rcases h : p.1 == d with _ | _ <;> simp [bne, h]
  simp only [h1, List.filter_false]
  simp

theorem setInsight_idem (d : Nat) (r : InsightRow) (l : List (Nat × InsightRow)) :
    setInsight d r (setInsight d r l) = setInsight d r l := by
  unfold setInsight
  rw [List.filter_append, List.filter_filter]
  have h1 : ∀ p : Nat × InsightRow, (p.1 != d && p.1 != d) = (p.1 != d) := by
    intro p; exact Bool.and_self _
  have h2 : List.filter (fun p : Nat × InsightRow => p.1 != d) [(d, r)] = [] := by
    simp [bne]
  simp only [h1, h2, List.append_nil]

theorem insightTotals_foldl_aux (d : Nat) (ts : List Txn) :
    ∀ a b : Int, ∀ c : Nat,
      ts.foldl
        (fun acc t =>
          if dateOf t.timestamp = d then
            (acc.1 + (if t.type = "income" then t.amount_paise else 0),
             acc.2.1 + (if t.type = "expense" then t.amount_paise else 0),
             acc.2.2 + 1)
          else acc)
        (a, b, c)
      = (a + sumIncomeOn d ts, b + sumExpenseOn d ts, c + countOn d ts) := by
  induction ts with
  | nil => intro a b c; simp [sumIncomeOn, sumExpenseOn, countOn]
  | cons t ts ih =>
    intro a b c
    rw [List.foldl_cons]
    by_cases hd : dateOf t.timestamp = d
    · rw [if_pos hd, ih]
      simp only [sumIncomeOn, sumExpenseOn, countOn, hd, true_and, if_true]
      refine Prod.ext ?_ (Prod.ext ?_ ?_) <;> dsimp only <;> ring
    · rw [if_neg hd, ih]
      simp only [sumIncomeOn, sumExpenseOn, countOn, hd, false_and, if_false, zero_add]

theorem insightTotals_spec (d : Nat) (ts : List Txn) :
    insightTotals d ts = (sumIncomeOn d ts, sumExpenseOn d ts, countOn d ts) := by
  unfold insightTotals
  have h := insightTotals_foldl_aux d ts 0 0 0
  simpa using h

theorem top_customer_foldl_aux (d : Nat) (ts : List Txn) (l : List String) :
    ∀ b0 : String,
      ∃ c, l.foldl
          (fun best x =>
            match best with
            | none => some x
            | some b =>
              if customerIncomeTotal d b ts < customerIncomeTotal d x ts then some x else some b)
          (some b0) = some c ∧
        (c = b0 ∨ c ∈ l) ∧ customerIncomeTotal d b0 ts ≤ customerIncomeTotal d c ts ∧
        ∀ x ∈ l, customerIncomeTotal d x ts ≤ customerIncomeTotal d c ts := by
  induction l with
  | nil =>
    intro b0
    exact ⟨b0, rfl, Or.inl rfl, le_refl _, by intro x hx; cases hx⟩
  | cons x l ih =>
    intro b0
    by_cases hlt : customerIncomeTotal d b0 ts < customerIncomeTotal d x ts
    · obtain ⟨c, hc, hmem, hle, hall⟩ := ih x
      refine ⟨c, ?_, ?_, ?_, ?_⟩
      · simpa [hlt] using hc
      · rcases hmem with h | h
        · exact Or.inr (h ▸ List.mem_cons_self x l)
        · exact Or.inr (List.mem_cons_of_mem x h)
      · exact le_of_lt (lt_of_lt_of_le hlt hle)
      · intro y hy
        rcases List.mem_cons.mp hy with h | h
        · exact h ▸ hle
        · exact hall y h
    · obtain ⟨c, hc, hmem, hle, hall⟩ := ih b0
      refine ⟨c, ?_, ?_, ?_, ?_⟩
      · simpa [hlt] using hc
      · rcases hmem with h | h
        · exact Or.inl h
        · exact Or.inr (List.mem_cons_of_mem x h)
      · exact hle
      · intro y hy
        rcases List.mem_cons.mp hy with h | h
        · exact h ▸ le_trans (not_lt.mp hlt) hle
        · exact hall y h

theorem top_customer_on_spec (d : Nat) (ts : List Txn) :
    topCustomerSpec d ts (top_customer_on d ts) := by
  unfold top_customer_on
  rcases h : namedIncomeCustomers d ts with _ | ⟨x, l⟩
  · simpa [topCustomerSpec] using h
  · obtain ⟨c, hc, hmem, hle, hall⟩ := top_customer_foldl_aux d ts l x
    have hfold : (x :: l).foldl
        (fun best y =>
          match best with
          | none => some y
          | some b =>
            if customerIncomeTotal d b ts < customerIncomeTotal d y ts then some y else some b)
        none = some c := by
      simpa using hc
    rw [hfold]
    constructor
    · rw [h]
      rcases hmem with hh | hh
      · exact hh ▸ List.mem_cons_self x l
      · exact List.mem_cons_of_mem x hh
    · intro b hb
      rw [h] at hb
      rcases List.mem_cons.mp hb with hh | hh
      · exact hh ▸ hle
      · exact hall b hh

theorem insights_after_recompute (d : Nat) (s : Store) :
    lookupInsight d (update_daily_insights d s).insights =
      some ⟨sumIncomeOn d s.txns, sumExpenseOn d s.txns, countOn d s.txns,
            top_customer_on d s.txns⟩ := by
  unfold update_daily_insights
  simp only [insightTotals_spec]
  exact lookupInsight_setInsight_self _ _ _

theorem update_daily_insights_idem (d : Nat) (s : Store) :
    update_daily_insights d (update_daily_insights d s) = update_daily_insights d s := by
  unfold update_daily_insights
  simp only [setInsight_idem]

theorem addAttempt_ok_inv {locked : Nat → Bool} {now : Nat} {payload : Payload} {s : Store}
    {k i : Nat} {s' : Store} (h : addAttempt locked now payload s k = Except.ok (i, s')) :
    i = s.nextId ∧
    s' = update_daily_insights (dateOf now)
        { s with
            txns := s.txns ++
              [⟨s.nextId, lowerStr (payload.type.getD ""), payload.amount_paise.getD 0,
                payload.customer, payload.details, now⟩],
            nextId := s.nextId + 1 } ∧
    (lowerStr (payload.type.getD "") = "income" ∨ lowerStr (payload.type.getD "") = "expense") ∧
    0 < payload.amount_paise.getD 0 ∧
    truthyStr payload.type = true ∧ truthyInt payload.amount_paise = true := by
  unfold addAttempt at h
  split at h
  · exact absurd h (by simp)
  · split at h
    · exact absurd h (by simp)
    · split at h
      · exact absurd h (by simp)
      · rw [Except.ok.injEq, Prod.mk.injEq] at h
        rename_i hguard _ hintegrity
        push_neg at hguard hintegrity
        refine ⟨h.1.symm, h.2.symm, hintegrity.1, hintegrity.2, ?_, ?_⟩
        · simpa using hguard.1
        · simpa using hguard.2

theorem add_transaction_ok_inv {locked : Nat → Bool} {now : Nat} {payload : Payload}
    {s : Store} {i : Nat} {s' : Store}
    (h : add_transaction locked now payload s = Except.ok (i, s')) :
    i = s.nextId ∧
    s' = update_daily_insights (dateOf now)
        { s with
            txns := s.txns ++
              [⟨s.nextId, lowerStr (payload.type.getD ""), payload.amount_paise.getD 0,
                payload.customer, payload.details, now⟩],
            nextId := s.nextId + 1 } ∧
    (lowerStr (payload.type.getD "") = "income" ∨ lowerStr (payload.type.getD "") = "expense") ∧
    0 < payload.amount_paise.getD 0 ∧
    truthyStr payload.type = true ∧ truthyInt payload.amount_paise = true := by
  unfold add_transaction at h
  rcases retryLoop_cases (addAttempt locked now payload s) with hc | hc | hc <;>
    rw [hc] at h <;> exact addAttempt_ok_inv h

theorem retryLoop_all_locked {α : Type} (run : Nat → Except DBError α)
    (h : ∀ k, run k = Except.error DBError.locked) :
    retryLoop run = Except.error DBError.locked := by
  simp [retryLoop, h 0, h 1, h 2]

theorem updateAttempt_never_ok (locked : Nat → Bool) (today tid : Nat) (payload : Payload)
    (s : Store) (k : Nat) :
    ∃ e, updateAttempt locked today tid payload s k = Except.error e := by
  unfold updateAttempt
  rcases hty : payload.type with _ | tv
  · exact ⟨_, rfl⟩
  · dsimp only
    by_cases hk : locked k = true
    · rw [if_pos hk]
      exact ⟨_, rfl⟩
    · rw [if_neg hk]
      split
      · exact ⟨_, rfl⟩
      · exact ⟨_, rfl⟩

theorem updateAttempt_valid_locked {tv : String} {a : Int} (locked : Nat → Bool)
    (today tid : Nat) (payload : Payload) (s : Store) (k : Nat)
    (hty : payload.type = some tv)
    (htl : lowerStr tv = "income" ∨ lowerStr tv = "expense")
    (hamt : payload.amount_paise = some a) (ha : 0 < a) :
    updateAttempt locked today tid payload s k = Except.error DBError.locked := by
  unfold updateAttempt
  rw [hty]
  dsimp only
  by_cases hk : locked k = true
  · rw [if_pos hk]
  · rw [if_neg hk, if_neg]
    intro hc
    rcases hc.2 with h | h | h
    · exact h htl
    · rw [hamt] at h
      exact absurd h (by simp)
    · rw [hamt] at h
      simp only [Option.getD_some] at h
      omega

theorem update_transaction_never_ok (locked : Nat → Bool) (today n : Nat)
    (payload : Payload) (s : Store) (hn : n ≠ 0) :
    ∃ e, update_transaction locked today (some n) payload s = Except.error e := by
  unfold update_transaction
  rw [if_neg (by simp [truthyNat, hn])]
  rcases retryLoop_cases (updateAttempt locked today ((some n).getD 0) payload s) with
    hc | hc | hc <;> rw [hc] <;> exact updateAttempt_never_ok _ _ _ _ _ _

theorem update_transaction_valid_locked {tv : String} {a : Int} (locked : Nat → Bool)
    (today n : Nat) (payload : Payload) (s : Store) (hn : n ≠ 0)
    (hty : payload.type = some tv)
    (htl : lowerStr tv = "income" ∨ lowerStr tv = "expense")
    (hamt : payload.amount_paise = some a) (ha : 0 < a) :
    update_transaction locked today (some n) payload s = Except.error DBError.locked := by
  unfold update_transaction
  rw [if_neg (by simp [truthyNat, hn])]
  exact retryLoop_all_locked _
    (fun k => updateAttempt_valid_locked locked today _ payload s k hty htl hamt ha)

theorem deleteAttempt_locked (locked : Nat → Bool) (today : Nat) (s : Store) (k : Nat) :
    deleteAttempt locked today s k = Except.error DBError.locked := by
  unfold deleteAttempt
  split <;> rfl

theorem delete_todays_transactions_locked (locked : Nat → Bool) (today : Nat) (s : Store) :
    delete_todays_transactions locked today s = Except.error DBError.locked := by
  unfold delete_todays_transactions
  exact retryLoop_all_locked _ (fun k => deleteAttempt_locked locked today s k)

theorem maxByIdRow_append_max (l : List Txn) (t : Txn) (h : ∀ u ∈ l, u.id < t.id) :
    maxByIdRow (l ++ [t]) = some t := by
  induction l with
  | nil => rfl
  | cons u l ih =>
    have hlt : u.id < t.id := h u (List.mem_cons_self u l)
    have hr : maxByIdRow (l ++ [t]) = some t :=
      ih (fun v hv => h v (List.mem_cons_of_mem u hv))
    show maxByIdRow (u :: (l ++ [t])) = some t
    unfold maxByIdRow
    rw [hr]
    dsimp only
    rw [if_neg (by omega)]

/-! ### Concrete values used by counterexamples and witnesses -/

/-- A contention-free store oracle. -/
def noLock : Nat → Bool := fun _ => false

/-- Lock contention on the first two attempts only. -/
def lockedTwice : Nat → Bool := fun i => decide (i < 2)

/-- Lock contention on the first three attempts (the scenario of the
retry claim: transient errors on attempts 1-3, success from attempt 4 on). -/
def lockedThrice : Nat → Bool := fun i => decide (i < 3)

/-- A well-formed income payload. -/
def pIncome : Payload := ⟨some "income", some 500, some "Ram", some "fix"⟩

/-- An update payload supplying type and amount but neither customer nor
details. -/
def pAmountOnly : Payload := ⟨some "income", some 200, none, none⟩

/-- The empty freshly initialized store. -/
def store0 : Store := ⟨[], 1, []⟩

/-- A one-row store whose row has a customer and details. -/
def storeRam : Store := ⟨[⟨1, "income", 100, some "Ram", some "det", 0⟩], 2, []⟩

/-- The store produced by inserting `pIncome` into the empty store at
timestamp 0. -/
def storeAfterInsert : Store :=
  ⟨[⟨1, "income", 500, some "Ram", some "fix", 0⟩], 2, [(0, ⟨500, 0, 1, some "Ram"⟩)]⟩

/-- A store with one row on day 0 and one row on day 1. -/
def storeTwoDays : Store :=
  ⟨[⟨1, "income", 100, none, none, 0⟩, ⟨2, "expense", 50, none, none, 1000000⟩], 3, []⟩

/-- A session that is busy, in edit mode, with an empty history. -/
def sessionEditBusy : AppState := ⟨store0, [], some 1, true, true⟩

/-- A busy session that is not in edit mode. -/
def sessionBusy : AppState := ⟨storeRam, [Msg.user "hi"], none, false, true⟩

/-! ### Claim C10 -/

/-- Claim C10: for every payload, calling update with a null or zero
transaction id returns false immediately, with the store untouched — no row
modified and no DailyInsight recompute. -/
theorem update_falsy_id_is_noop (locked : Nat → Bool) (today : Nat) (p : Payload) (s : Store) :
    update_transaction locked today none p s = Except.ok (false, s) ∧
    update_transaction locked today (some 0) p s = Except.ok (false, s) := by
  constructor <;> rfl

/-! ### Claim C6 -/

/-- Claim C6 counterexample: the payload with type "INCOME" and amount 100
is accepted by validate, although the claim's enumeration (type outside
{income, expense}) demands rejection — the code compares the type
case-insensitively. -/
theorem validate_accepts_uppercase_type :
    (validate_transaction_data ⟨some "INCOME", some 100, none, none⟩).1 = true ∧
    rejectsPerClaim ⟨some "INCOME", some 100, none, none⟩ := by
  constructor
  · rfl
  · right; left
    decide

/-- The type checks of validate (missing-type guard plus enum test) amount
to: the lowercased type value is outside the enum or the type is absent. -/
theorem typeBad_iff (ty : Option String) :
    ((¬ truthyStr ty) ∨
      ¬ (lowerStr (ty.getD "") = "income" ∨ lowerStr (ty.getD "") = "expense")) ↔
    (match ty with
     | none => True
     | some tv => ¬ (lowerStr tv = "income" ∨ lowerStr tv = "expense")) := by
  rcases ty with _ | tv
  · simp [truthyStr]
  · by_cases hemp : tv = ""
    · subst hemp
      simp only [truthyStr, Option.getD_some]
      constructor
      · intro _
        decide
      · intro h
        exact Or.inr h
    · simp [truthyStr, hemp]

/-- The truthiness-guarded length checks of validate coincide with a plain
length bound, for a positive bound. -/
theorem strFieldBad_iff (x : Option String) (n : Nat) (hn : 0 < n) :
    (truthyStr x ∧ (x.getD "").length > n) ↔
    (match x with
     | none => False
     | some c => c.length > n) := by
  rcases x with _ | c
  · simp [truthyStr]
  · simp only [truthyStr, Option.getD_some]
    constructor
    · intro h
      exact h.2
    · intro h
      refine ⟨?_, h⟩
      rw [decide_eq_true_eq]
      intro hemp
      subst hemp
      have h0 : ("" : String).length = 0 := rfl
      omega

/-- Claim C6 as amended: validate returns not-ok exactly when the amount is
missing or non-positive, the type is missing or its lowercase form is
outside {income, expense}, the customer exceeds 100 characters, or the
details exceed 500 characters; and the accompanying message is "Valid"
exactly on acceptance. -/
theorem validate_rejects_iff (p : Payload) :
    ((validate_transaction_data p).1 = false ↔ rejectsAmended p) ∧
    ((validate_transaction_data p).2 = "Valid" ↔ (validate_transaction_data p).1 = true) := by
  have hbridge : rejectsAmended p ↔
      ((p.amount_paise = none ∨ p.amount_paise.getD 0 ≤ 0) ∨
       ((¬ truthyStr p.type) ∨
         ¬ (lowerStr (p.type.getD "") = "income" ∨ lowerStr (p.type.getD "") = "expense")) ∨
       (truthyStr p.customer ∧ (p.customer.getD "").length > 100) ∨
       (truthyStr p.details ∧ (p.details.getD "").length > 500)) := by
    unfold rejectsAmended
    rw [typeBad_iff, strFieldBad_iff _ 100 (by omega), strFieldBad_iff _ 500 (by omega)]
  constructor
  · rw [hbridge]
    unfold validate_transaction_data
    split
    · rename_i h1
      simpa using Or.inr (Or.inl (Or.inl h1))
    · rename_i h1
      split
      · rename_i h2
        simpa using Or.inr (Or.inl (Or.inr h2))
      · rename_i h2
        split
        · rename_i h3
          simpa using Or.inl h3
        · rename_i h3
          split
          · rename_i h4
            simpa using Or.inr (Or.inr (Or.inl h4))
          · rename_i h4
            split
            · rename_i h5
              simpa using Or.inr (Or.inr (Or.inr h5))
            · rename_i h5
              constructor
              · intro hx
                exact absurd hx (by decide)
              · intro hx
                exfalso
                rcases hx with h | h | h | h
                · exact h3 h
                · rcases h with h | h
                  · exact h1 h
                  · exact h2 h
                · exact h4 h
                · exact h5 h
  · unfold validate_transaction_data
    split
    · exact ⟨fun hx => absurd hx (by decide), fun hx => absurd hx (by decide)⟩
    · split
      · exact ⟨fun hx => absurd hx (by decide), fun hx => absurd hx (by decide)⟩
      · split
        · exact ⟨fun hx => absurd hx (by decide), fun hx => absurd hx (by decide)⟩
        · split
          · exact ⟨fun hx => absurd hx (by decide), fun hx => absurd hx (by decide)⟩
          · split
            · exact ⟨fun hx => absurd hx (by decide), fun hx => absurd hx (by decide)⟩
            · exact ⟨fun _ => rfl, fun _ => rfl⟩

/-! ### Claim C9 -/

/-- Claim C9: while a request is in flight (the busy flag set), any new
submission — whether through `on_submit` or directly through
`process_command` — leaves the whole application state, store included,
unchanged; and a completed request handler always returns the orchestrator
to the idle state, whatever the response (success or error). -/
theorem busy_submissions_dropped :
    (∀ (s : AppState) (text : String), s.is_processing = true → on_submit text s = s) ∧
    (∀ (s : AppState) (text : String), s.is_processing = true → process_command text s = s) ∧
    (∀ (locked : Nat → Bool) (now : Nat) (msg : String) (r : Response) (s : AppState),
      (handle_llm_response locked now msg r s).is_processing = false) := by
  refine ⟨?_, ?_, ?_⟩
  · intro s text h
    unfold on_submit
    rw [if_neg]
    intro hc
    rw [h] at hc
    exact hc.2 rfl
  · intro s text h
    unfold process_command
    rw [if_pos h]
  · intro locked now msg r s
    unfold handle_llm_response
    cases dispatch locked now msg r s <;> rfl

/-- Claim C9 witness: a concrete busy session drops a concrete submission
unchanged, and a concrete completed request restores idleness. -/
theorem busy_submissions_dropped_witness :
    on_submit "income 500" sessionBusy = sessionBusy ∧
    process_command "income 500" sessionBusy = sessionBusy ∧
    (handle_llm_response noLock 0 "hello" ⟨"greeting", none⟩ sessionBusy).is_processing = false := by
  refine ⟨?_, ?_, ?_⟩
  · exact busy_submissions_dropped.1 sessionBusy "income 500" rfl
  · exact busy_submissions_dropped.2.1 sessionBusy "income 500" rfl
  · exact busy_submissions_dropped.2.2 noLock 0 "hello" ⟨"greeting", none⟩ sessionBusy

/-! ### Claim C3 -/

/-- Claim C3 counterexample: a parser failure handled while the session is
in edit mode clears the edit-mode flag and appends the failed exchange to
the conversation history, so neither is left identical to its value before
the request. -/
theorem parser_failure_mutates_session :
    (handle_llm_response noLock 0 "oops" ⟨"error", some (RPayload.text "boom")⟩
        sessionEditBusy).is_edit_mode = false ∧
    sessionEditBusy.is_edit_mode = true ∧
    (handle_llm_response noLock 0 "oops" ⟨"error", some (RPayload.text "boom")⟩
        sessionEditBusy).conversation_history ≠ sessionEditBusy.conversation_history := by
  refine ⟨?_, rfl, ?_⟩
  · rfl
  · intro h
    exact absurd h (by decide)

/-- Claim C3 as amended: on any parser failure (the worker surfaces
`intent = error`, which is also what a transport timeout, stderr noise, or
malformed worker output collapse to), the handler leaves the store and the
last-transaction pointer untouched, but it appends the failed exchange to
the conversation history (bounded to the last 6 turns) and always clears
the edit-mode flag, before restoring the idle state. -/
theorem parser_failure_state_effects :
    (∀ (locked : Nat → Bool) (now : Nat) (msg : String) (pl : Option RPayload) (s : AppState),
      handle_llm_response locked now msg ⟨"error", pl⟩ s =
        { s with
            conversation_history :=
              takeLast 6 (s.conversation_history ++
                [Msg.user msg, Msg.assistant (serializeResponse ⟨"error", pl⟩)]),
            is_edit_mode := false,
            is_processing := false }) ∧
    run_llm_worker WorkerOutcome.timeout =
      ⟨"error", some (RPayload.text "Request timed out. Please try again.")⟩ ∧
    run_llm_worker WorkerOutcome.malformed =
      ⟨"error", some (RPayload.text "Failed to parse AI response. Please try again.")⟩ ∧
    ∀ m, run_llm_worker (WorkerOutcome.stderrOutput m) =
      ⟨"error", some (RPayload.text ("System error: LLM Worker Error: " ++ m))⟩ := by
  refine ⟨?_, rfl, rfl, fun m => rfl⟩
  intro locked now msg pl s
  unfold handle_llm_response dispatch
  dsimp only
  rw [if_neg (show ¬ (("error" : String) = "database_query") from by decide)]
  rw [if_neg (show ¬ (("error" : String) = "delete_transactions") from by decide)]
  rw [if_neg (show ¬ (("error" : String) = "answer") from by decide)]
  cases he : s.is_edit_mode
  · rw [if_neg (show ¬ (false = true) from by decide)]
    rw [if_neg (show ¬ (("error" : String) = "transaction") from by decide)]
    rw [if_neg (show ¬ (("error" : String) = "update_transaction") from by decide)]
    simp [reset_ui_state, appendHistory, he]
  · rw [if_pos rfl]
    rw [if_neg (fun hc => absurd hc.1 (show ¬ (("error" : String) = "transaction") from by decide))]
    rfl

/-! ### Claim C1 -/

theorem retryLoop_locked01 {α : Type} (run : Nat → Except DBError α)
    (h0 : run 0 = Except.error DBError.locked) (h1 : run 1 = Except.error DBError.locked) :
    retryLoop run = run 2 := by
  simp [retryLoop, h0, h1]

/-- Claim C1 counterexample: with transient lock contention on the first
three attempts (the store would succeed from the fourth attempt on), an
insert does not succeed on a fourth attempt — the loop gives up after three
attempts and surfaces the lock error. -/
theorem insert_fails_after_three_transient_errors :
    add_transaction lockedThrice 0 pIncome store0 = Except.error DBError.locked := by
  decide

/-- Claim C1 as amended: every mutating store call runs the same bounded
loop of 3 attempts (2 retries), not the claimed 4.  For insert — whose
transaction commits before the insight recompute — transient lock
contention on the first two attempts with a free third attempt lets the
call succeed, and three consecutive transient errors make it fail with the
fatal lock error.  For update (truthy id, valid payload) and deleteScope,
every attempt itself ends in the transient lock error because the
synchronous DailyInsight recompute deadlocks against the call's own
uncommitted transaction, so these calls always exhaust the loop and fail
with the fatal lock error, whatever the external contention. -/
theorem retry_bound_two_retries :
    (∀ (locked : Nat → Bool) (now : Nat) (p : Payload) (tv : String) (a : Int) (s : Store),
      locked 0 = true → locked 1 = true → locked 2 = false →
      p.type = some tv → (lowerStr tv = "income" ∨ lowerStr tv = "expense") →
      p.amount_paise = some a → 0 < a →
      ∃ x, add_transaction locked now p s = Except.ok x) ∧
    (∀ (locked : Nat → Bool) (now : Nat) (p : Payload) (tv : String) (a : Int) (s : Store),
      locked 0 = true → locked 1 = true → locked 2 = true →
      p.type = some tv → (lowerStr tv = "income" ∨ lowerStr tv = "expense") →
      p.amount_paise = some a → 0 < a →
      add_transaction locked now p s = Except.error DBError.locked) ∧
    (∀ (locked : Nat → Bool) (today n : Nat) (p : Payload) (tv : String) (a : Int) (s : Store),
      n ≠ 0 → p.type = some tv → (lowerStr tv = "income" ∨ lowerStr tv = "expense") →
      p.amount_paise = some a → 0 < a →
      update_transaction locked today (some n) p s = Except.error DBError.locked) ∧
    (∀ (locked : Nat → Bool) (today : Nat) (s : Store),
      delete_todays_transactions locked today s = Except.error DBError.locked) := by
  have htvne : ∀ tv : String, (lowerStr tv = "income" ∨ lowerStr tv = "expense") → tv ≠ "" := by
    intro tv htl hemp
    subst hemp
    rcases htl with h | h <;> exact absurd h (by decide)
  have haddlocked : ∀ (locked : Nat → Bool) (now : Nat) (p : Payload) (tv : String) (a : Int)
      (s : Store) (k : Nat), locked k = true → p.type = some tv →
      (lowerStr tv = "income" ∨ lowerStr tv = "expense") → p.amount_paise = some a → 0 < a →
      addAttempt locked now p s k = Except.error DBError.locked := by
    intro locked now p tv a s k hk hty htl hamt ha
    unfold addAttempt
    rw [if_neg, if_pos hk]
    rw [hty, hamt]
    simp only [truthyStr, truthyInt]
    push_neg
    refine ⟨by simp [htvne tv htl], by simp; omega⟩
  have haddfree : ∀ (locked : Nat → Bool) (now : Nat) (p : Payload) (tv : String) (a : Int)
      (s : Store) (k : Nat), locked k = false → p.type = some tv →
      (lowerStr tv = "income" ∨ lowerStr tv = "expense") → p.amount_paise = some a → 0 < a →
      ∃ x, addAttempt locked now p s k = Except.ok x := by
    intro locked now p tv a s k hk hty htl hamt ha
    unfold addAttempt
    rw [if_neg, if_neg (by rw [hk]; exact fun hc => absurd hc (by decide)), if_neg]
    · exact ⟨_, rfl⟩
    · rw [hty, hamt]
      simp only [Option.getD_some]
      push_neg
      exact ⟨htl, by omega⟩
    · rw [hty, hamt]
      simp only [truthyStr, truthyInt]
      push_neg
      refine ⟨by simp [htvne tv htl], by simp; omega⟩
  refine ⟨?_, ?_, ?_, ?_⟩
  · intro locked now p tv a s hl0 hl1 hl2 hty htl hamt ha
    obtain ⟨x, hx⟩ := haddfree locked now p tv a s 2 hl2 hty htl hamt ha
    refine ⟨x, ?_⟩
    unfold add_transaction
    rw [retryLoop_locked01 _ (haddlocked locked now p tv a s 0 hl0 hty htl hamt ha)
      (haddlocked locked now p tv a s 1 hl1 hty htl hamt ha)]
    exact hx
  · intro locked now p tv a s hl0 hl1 hl2 hty htl hamt ha
    unfold add_transaction
    rw [retryLoop_locked01 _ (haddlocked locked now p tv a s 0 hl0 hty htl hamt ha)
      (haddlocked locked now p tv a s 1 hl1 hty htl hamt ha)]
    exact haddlocked locked now p tv a s 2 hl2 hty htl hamt ha
  · intro locked today n p tv a s hn hty htl hamt ha
    exact update_transaction_valid_locked locked today n p s hn hty htl hamt ha
  · intro locked today s
    exact delete_todays_transactions_locked locked today s

/-- Claim C1 witness: a concrete insert succeeds on the third attempt after
contention on the first two, while a concrete update and delete fail with
the lock error even with no external contention at all. -/
theorem retry_bound_two_retries_witness :
    (∃ x, add_transaction lockedTwice 0 pIncome storeRam = Except.ok x) ∧
    update_transaction noLock 0 (some 1) pIncome storeRam = Except.error DBError.locked ∧
    delete_todays_transactions noLock 0 storeRam = Except.error DBError.locked :=
  ⟨retry_bound_two_retries.1 lockedTwice 0 pIncome "income" 500 storeRam
      (by decide) (by decide) (by decide) rfl (Or.inl (by decide)) rfl (by decide),
   retry_bound_two_retries.2.2.1 noLock 0 1 pIncome "income" 500 storeRam
      (by decide) rfl (Or.inl (by decide)) rfl (by decide),
   retry_bound_two_retries.2.2.2 noLock 0 storeRam⟩

/-! ### Claim C5 -/

/-- Claim C5: inserting a valid payload (type in the enum, positive integer
amount, customer and details within length limits) and immediately reading
the last transaction returns a record whose type, amount, customer and
details equal the inserted payload's fields exactly (given the store
invariant that ids never exceed the autoincrement counter). -/
theorem insert_then_get_last
    (locked : Nat → Bool) (now : Nat) (p : Payload) (tv : String) (a : Int) (s : Store)
    (i : Nat) (s' : Store)
    (hty : p.type = some tv) (htv : tv = "income" ∨ tv = "expense")
    (hamt : p.amount_paise = some a) (ha : 0 < a)
    (hcu : match p.customer with | none => True | some c => c.length ≤ 100)
    (hde : match p.details with | none => True | some dt => dt.length ≤ 500)
    (hids : ∀ t ∈ s.txns, t.id < s.nextId)
    (hok : add_transaction locked now p s = Except.ok (i, s')) :
    get_last_transaction s' = some ⟨i, tv, a, p.customer, p.details, now⟩ := by
  obtain ⟨hi, hs, _, _, _, _⟩ := add_transaction_ok_inv hok
  have hlow : lowerStr tv = tv := by
    rcases htv with h | h <;> subst h <;> decide
  subst hi hs
  unfold get_last_transaction
  rw [txns_update_daily_insights]
  dsimp only
  rw [maxByIdRow_append_max _ _ hids]
  rw [hty, hamt]
  simp [hlow]

/-- Claim C5 witness: a concrete insert into the empty store followed by
`get_last_transaction` reads back exactly the inserted fields. -/
theorem insert_then_get_last_witness :
    get_last_transaction storeAfterInsert = some ⟨1, "income", 500, some "Ram", some "fix", 0⟩ :=
  insert_then_get_last noLock 0 pIncome "income" 500 store0 1 storeAfterInsert rfl
    (Or.inl rfl) rfl (by decide) (show ("Ram" : String).length ≤ 100 by decide)
    (show ("fix" : String).length ≤ 500 by decide) (by intro t ht; cases ht) (by decide)

/-! ### Claim C7 -/

/-- Claim C7 (the claim is right and the code is wrong): `deleteScope(today)`
never removes a row and never returns a count.  The DELETE executes, but the
synchronous DailyInsight recompute then writes on a second connection while
the DELETE transaction is still uncommitted, deadlocks on it, and raises the
lock-busy error on every attempt; the DELETE is rolled back and after 3
attempts the call surfaces the fatal lock error.  The theorem evaluates the
code on every store, and in particular on the concrete two-day failing
input. -/
theorem delete_scope_today_always_raises :
    (∀ (locked : Nat → Bool) (today : Nat) (s : Store),
      delete_todays_transactions locked today s = Except.error DBError.locked) ∧
    delete_todays_transactions noLock 0 storeTwoDays = Except.error DBError.locked := by
  refine ⟨fun locked today s => delete_todays_transactions_locked locked today s, by decide⟩

/-! ### Claim C2 -/

/-- Claim C2 counterexample: on the one-row store, update through a truthy
id with a payload supplying type and amount returns no boolean at all — the
call fails with the lock error (its DailyInsight recompute deadlocks
against the still-uncommitted UPDATE on every attempt), the UPDATE is
rolled back and the stored row keeps all its columns — while the claim
promises a true return with only the supplied columns rewritten. -/
theorem update_raises_instead_of_updating :
    update_transaction noLock 0 (some 1) pAmountOnly storeRam = Except.error DBError.locked ∧
    storeRam.txns.map Txn.customer_name = [some "Ram"] := by
  refine ⟨by decide, by decide⟩

/-- Claim C2 as amended: update with a truthy id never completes and never
modifies any row.  A payload without a type raises while the parameters are
bound; otherwise every attempt fails — with the integrity error when a
matched row would violate the schema checks, else with the transient lock
error raised by the synchronous DailyInsight recompute, whose write on a
second connection deadlocks against the call's own uncommitted UPDATE — so
the call always surfaces a store error (for a valid payload, the fatal lock
error after 3 attempts) and no column of any row is rewritten. -/
theorem update_truthy_id_always_raises :
    (∀ (locked : Nat → Bool) (today n : Nat) (p : Payload) (s : Store),
      n ≠ 0 → ∃ e, update_transaction locked today (some n) p s = Except.error e) ∧
    (∀ (locked : Nat → Bool) (today n : Nat) (p : Payload) (tv : String) (a : Int) (s : Store),
      n ≠ 0 → p.type = some tv → (lowerStr tv = "income" ∨ lowerStr tv = "expense") →
      p.amount_paise = some a → 0 < a →
      update_transaction locked today (some n) p s = Except.error DBError.locked) := by
  constructor
  · intro locked today n p s hn
    exact update_transaction_never_ok locked today n p s hn
  · intro locked today n p tv a s hn hty htl hamt ha
    exact update_transaction_valid_locked locked today n p s hn hty htl hamt ha

/-- Claim C2 witness: the amended description instantiated on the one-row
store with the type-and-amount payload. -/
theorem update_truthy_id_always_raises_witness :
    (∃ e, update_transaction noLock 0 (some 1) pAmountOnly storeRam = Except.error e) ∧
    update_transaction noLock 5 (some 1) pAmountOnly storeRam = Except.error DBError.locked :=
  ⟨update_truthy_id_always_raises.1 noLock 0 1 pAmountOnly storeRam (by decide),
   update_truthy_id_always_raises.2 noLock 5 1 pAmountOnly "income" 200 storeRam
      (by decide) rfl (Or.inl (by decide)) rfl (by decide)⟩

/-! ### Claim C4 -/

/-- Claim C4: after every successful mutating operation, the stored
DailyInsight row for the calendar date of the affected transaction equals
the aggregates recomputed from the transactions table for that date, and
the recompute is idempotent.  The only mutating operations that can succeed
are inserts — update with a truthy id and delete-today always raise through
the recompute deadlock, so the claim is vacuously true of them, which the
second and third conjuncts record — and a successful insert affects exactly
one row, dated today, whose date's insight row is synchronously rewritten
to the recomputed income sum, expense sum, row count and a top customer of
maximal income total. -/
theorem daily_insight_recomputed_for_today :
    (∀ (locked : Nat → Bool) (now : Nat) (p : Payload) (s : Store) (i : Nat) (s' : Store),
      add_transaction locked now p s = Except.ok (i, s') →
      (∃ row, s'.txns = s.txns ++ [row] ∧ dateOf row.timestamp = dateOf now) ∧
      lookupInsight (dateOf now) s'.insights =
        some ⟨sumIncomeOn (dateOf now) s'.txns, sumExpenseOn (dateOf now) s'.txns,
              countOn (dateOf now) s'.txns, top_customer_on (dateOf now) s'.txns⟩ ∧
      topCustomerSpec (dateOf now) s'.txns (top_customer_on (dateOf now) s'.txns)) ∧
    (∀ (locked : Nat → Bool) (today n : Nat) (p : Payload) (s : Store) (r : Bool × Store),
      n ≠ 0 → update_transaction locked today (some n) p s ≠ Except.ok r) ∧
    (∀ (locked : Nat → Bool) (today : Nat) (s : Store) (r : Nat × Store),
      delete_todays_transactions locked today s ≠ Except.ok r) ∧
    (∀ (d : Nat) (s : Store),
      update_daily_insights d (update_daily_insights d s) = update_daily_insights d s) := by
  refine ⟨?_, ?_, ?_, update_daily_insights_idem⟩
  · intro locked now p s i s' hok
    obtain ⟨_, hs, _⟩ := add_transaction_ok_inv hok
    subst hs
    refine ⟨⟨_, txns_update_daily_insights _ _, rfl⟩,
      insights_after_recompute _ _, top_customer_on_spec _ _⟩
  · intro locked today n p s r hn hc
    obtain ⟨e, he⟩ := update_transaction_never_ok locked today n p s hn
    rw [hc] at he
    exact absurd he (by simp)
  · intro locked today s r hc
    rw [delete_todays_transactions_locked locked today s] at hc
    exact absurd hc (by simp)

/-- Claim C4 witness: the claim instantiated on a concrete insert into the
empty store, together with concrete no-success instances for update and
delete. -/
theorem daily_insight_recomputed_for_today_witness :
    ((∃ row, storeAfterInsert.txns = store0.txns ++ [row] ∧ dateOf row.timestamp = dateOf 0) ∧
     lookupInsight 0 storeAfterInsert.insights =
       some ⟨sumIncomeOn 0 storeAfterInsert.txns, sumExpenseOn 0 storeAfterInsert.txns,
             countOn 0 storeAfterInsert.txns, top_customer_on 0 storeAfterInsert.txns⟩ ∧
     topCustomerSpec 0 storeAfterInsert.txns (top_customer_on 0 storeAfterInsert.txns)) ∧
    update_transaction noLock 0 (some 1) pAmountOnly storeRam ≠ Except.ok (true, storeRam) ∧
    delete_todays_transactions noLock 0 storeRam ≠ Except.ok (1, storeRam) :=
  ⟨daily_insight_recomputed_for_today.1 noLock 0 pIncome store0 1 storeAfterInsert (by decide),
   daily_insight_recomputed_for_today.2.1 noLock 0 1 pAmountOnly storeRam (true, storeRam)
      (by decide),
   daily_insight_recomputed_for_today.2.2.1 noLock 0 storeRam (1, storeRam)⟩

/-! ### Claim C8 -/

/-- The stored row with customer "Ram Traders" of the query claim. -/
def ramTradersRow : Txn := ⟨1, "income", 100, some "Ram Traders", none, 0⟩

/-- A store holding only `ramTradersRow`. -/
def storeRamTraders : Store := ⟨[ramTradersRow], 2, []⟩

/-- A filter supplying only a limit of 0. -/
def filtersLimit0 : QueryFilters := ⟨none, none, none, none, none, none, none, some 0⟩

/-- The filter of the claim's concrete instance: customer substring "ram"
with a limit of 5. -/
def filtersRam : QueryFilters := ⟨some "ram", none, none, none, none, none, none, some 5⟩

/-- Claim C8 counterexample: with a supplied limit of 0 the code ignores
the limit (Python truthiness) and returns the full result instead of the
empty truncation the claim prescribes. -/
theorem query_limit_zero_not_truncated :
    query_transactions filtersLimit0 storeRamTraders = [ramTradersRow] ∧
    queryPerClaim filtersLimit0 storeRamTraders = [] := by
  refine ⟨by decide, by decide⟩

/-- Claim C8 as amended: query returns exactly the rows satisfying the
conjunction of the supplied filters — customer and details case-insensitive
substring, exact type, inclusive amount and date ranges — ordered newest
first and truncated to the supplied limit, provided each supplied string
filter is non-empty, a supplied type is already lowercase, and supplied
amount bounds and limit are nonzero (the code skips any filter whose value
is falsy, so a zero limit means no truncation). -/
theorem query_conjunctive_filters
    (filters : QueryFilters) (s : Store)
    (hcu : filters.customer_name ≠ some "")
    (hde : filters.details_keyword ≠ some "")
    (hty : ∀ v, filters.type = some v → lowerStr v = v ∧ v ≠ "")
    (hmin : filters.min_amount_paise ≠ some 0)
    (hmax : filters.max_amount_paise ≠ some 0)
    (hlim : filters.limit ≠ some 0) :
    query_transactions filters s = queryPerClaim filters s := by
  have hrows : s.txns.filter (whereClause filters) = s.txns.filter (matchesPerClaim filters) := by
    apply List.filter_congr
    intro t _
    unfold whereClause matchesPerClaim
    congr 1
    · congr 1
      · congr 1
        · congr 1
          · congr 1
            · congr 1
              · rcases hc : filters.customer_name with _ | k
                · simp [truthyStr]
                · have hk : k ≠ "" := fun h => hcu (by rw [hc, h])
                  simp [truthyStr, hk]
              · rcases hd : filters.details_keyword with _ | k
                · simp [truthyStr]
                · have hk : k ≠ "" := fun h => hde (by rw [hd, h])
                  simp [truthyStr, hk]
            · rcases ht : filters.type with _ | v
              · simp [truthyStr]
              · obtain ⟨hvl, hvne⟩ := hty v ht
                simp [truthyStr, hvne, hvl]
          · rcases hm : filters.min_amount_paise with _ | m
            · simp [truthyInt]
            · have hm0 : m ≠ 0 := fun h => hmin (by rw [hm, h])
              simp [truthyInt, hm0]
        · rcases hm : filters.max_amount_paise with _ | m
          · simp [truthyInt]
          · have hm0 : m ≠ 0 := fun h => hmax (by rw [hm, h])
            simp [truthyInt, hm0]
      · rcases hdf : filters.date_from with _ | d <;> simp
    · rcases hdt : filters.date_to with _ | d <;> simp
  unfold query_transactions queryPerClaim
  dsimp only
  rw [hrows]
  rcases hl : filters.limit with _ | l
  · rfl
  · dsimp only
    rw [if_pos (show l ≠ 0 from fun h => hlim (by rw [hl, h]))]

/-- Claim C8 witness: the amended description instantiated on the claim's
own example — the filter customer "ram" (with limit 5) agrees with the
claim-side query and matches the stored customer "Ram Traders". -/
theorem query_conjunctive_filters_witness :
    query_transactions filtersRam storeRamTraders = queryPerClaim filtersRam storeRamTraders ∧
    query_transactions filtersRam storeRamTraders = [ramTradersRow] := by
  constructor
  · exact query_conjunctive_filters filtersRam storeRamTraders (by decide) (by decide)
      (by intro v hv; simp [filtersRam] at hv)
      (by decide) (by decide) (by decide)
  · decide

end MotorTech
